import Mathlib

/-!
A verification development for the AI-compliance SEO analyzer
(`ai_compliance_analyzer.py`): a bounded same-domain crawler followed by six
category scorers and a report aggregator.

Modelling conventions.
* Python floats are modelled as exact rationals (`ℚ`); every comparison the
  program performs is on small rationals far from representation boundaries.
* The HTTP session and the HTML parser are external collaborators: a "web" is
  a function `Url → Option FetchResult` (`none` models a transport exception),
  and a parsed document is the record of the signals the analyzer extracts
  from it with BeautifulSoup queries.
* The analyzer object's mutable fields (`compliance_score`,
  `detailed_results`) are threaded explicitly; a scorer that raises
  `ZeroDivisionError` (division by `len(pages_data)` on an empty crawl)
  returns `none` and leaves the state unchanged, and `analyze_website`'s
  `try/except` turns any such failure into a `none` report.
* `analysis_date` (wall-clock time) and the purely informational
  `avg_words_per_page` / `avg_headings_per_page` report fields are omitted:
  no property below depends on them.
-/

/-- A parsed URL, as produced by `urllib.parse.urlparse`: scheme, network
location (`netloc`), path and query are separate components.  In particular
the query string of `http://example.com/page?id=1` is `id=1` and is *not*
part of `.path` (which is `/page`). -/
structure Url where
  scheme : String
  netloc : String
  path : String
  query : String
  deriving DecidableEq, Repr

/-- The target of an `<a href=...>` attribute, as it behaves under
`urllib.parse.urljoin` against the page it appears on: an absolute reference
carries its own components (this includes scheme-only references such as
`mailto:` targets, whose `netloc` is empty), while a relative reference keeps
the base page's scheme and netloc and replaces path and query.  We record the
already-merged path, dot-segment merging being `urllib`'s business. -/
inductive Href where
  | abs (u : Url)
  | rel (path query : String)
  deriving DecidableEq, Repr

/-- `urllib.parse.urljoin(base, href)` restricted to the behaviour relevant
here: an absolute href stands for itself, a relative one inherits the base
page's scheme and netloc. -/
def urljoin (base : Url) : Href → Url
  | .abs u => u
  | .rel p q => { scheme := base.scheme, netloc := base.netloc, path := p, query := q }

/-- The per-page signals the analyzer extracts with BeautifulSoup queries.
Each field corresponds to exactly one query of the source. -/
structure Doc where
  /-- `len(soup.get_text().split())` -/
  words : Nat
  /-- number of `h1`–`h6` elements -/
  headings16 : Nat
  /-- number of `h1`–`h3` elements -/
  headings13 : Nat
  /-- number of `p` elements -/
  paragraphs : Nat
  /-- targets of `a[href]` elements, in document order -/
  links : List Href
  /-- a `meta[name=viewport]` tag is present -/
  has_viewport : Bool
  /-- a viewport meta tag is present and its content contains `width=device-width` -/
  viewport_device_width : Bool
  /-- a `script[type=application/ld+json]` element is present -/
  has_json_ld : Bool
  /-- an element with an `itemtype` attribute is present -/
  has_microdata : Bool
  /-- number of `article,section,nav,header,footer,aside,main` elements -/
  semantic_elements : Nat
  /-- a `title` element is present -/
  has_title : Bool
  /-- `len(title.text.strip())` (0 when there is no title) -/
  title_len : Nat
  /-- a `meta[name=description]` tag is present -/
  has_meta_desc : Bool
  /-- the lower-cased text matches `\b(what|how|why|when|where|who)\b.*\?` -/
  has_question : Bool
  /-- the lower-cased text contains one of the five conversational phrases -/
  conversational : Bool
  /-- an author/byline/writer class attribute or author meta tag is present -/
  has_author : Bool
  /-- the lower-cased text contains one of the six credibility phrases -/
  has_credibility : Bool
  /-- a date/time/published class attribute or a `time` element is present -/
  has_date : Bool
  deriving DecidableEq, Repr

/-- What `self.session.get` returns on a non-raising fetch: status code,
elapsed seconds and the parsed body. -/
structure FetchResult where
  status_code : Nat
  elapsed : ℚ
  doc : Doc
  deriving DecidableEq, Repr

/-- One entry of the crawler's `pages_data` list (the `soup`/`content` fields
are represented by `doc`, the `response` field by `elapsed`/`status_code`). -/
structure PageData where
  url : Url
  doc : Doc
  elapsed : ℚ
  status_code : Nat
  deriving DecidableEq, Repr

/-- `is_internal_link`: the two URLs' netlocs are equal, or the candidate has
an empty netloc. -/
def is_internal_link (base_url link_url : Url) : Bool :=
  base_url.netloc = link_url.netloc || link_url.netloc = ""

/-- The crawl loop of `crawl_website`, with the analyzer's mutable locals
(`to_visit`, `visited`, `pages_data`) threaded explicitly.  The extra `trace`
component is ghost instrumentation recording, in order, every URL for which a
fetch request is issued, paired with whether that fetch succeeded with status
200 (and hence was appended to the result).  Per the source: a popped URL
already in `visited` is skipped without a fetch; a fetch exception (`none`)
or a non-200 status drops the URL without marking it visited; on a 200
response the page is appended, the URL marked visited, and (while the result
is still below `max_pages`) the first 5 links are resolved against the
current page and enqueued when internal and not yet visited. -/
def crawl_loop (web : Url → Option FetchResult) (base_url : Url) (max_pages : Nat)
    (to_visit : List Url) (visited : List Url) (pages_data : List PageData)
    (trace : List (Url × Bool)) : List PageData × List (Url × Bool) :=
  match to_visit with
  | [] => (pages_data, trace)
  | url :: rest =>
    if _hfull : max_pages ≤ pages_data.length then (pages_data, trace)
    else if url ∈ visited then
      crawl_loop web base_url max_pages rest visited pages_data trace
    else
      match web url with
      | none =>
        crawl_loop web base_url max_pages rest visited pages_data (trace ++ [(url, false)])
      | some response =>
        if response.status_code = 200 then
          let page_data : PageData := ⟨url, response.doc, response.elapsed, response.status_code⟩
          let pages' := pages_data ++ [page_data]
          let visited' := visited ++ [url]
          let new_links :=
            if pages'.length < max_pages then
              ((response.doc.links.take 5).map (urljoin url)).filter
                (fun v => is_internal_link base_url v && !(decide (v ∈ visited')))
            else []
          crawl_loop web base_url max_pages (rest ++ new_links) visited' pages'
            (trace ++ [(url, true)])
        else
          crawl_loop web base_url max_pages rest visited pages_data (trace ++ [(url, false)])
termination_by (max_pages - pages_data.length, to_visit.length)
decreasing_by
  all_goals (try simp_wf)
  all_goals first
    | (apply Prod.Lex.right; omega)
    | (apply Prod.Lex.left; omega)

/-- `crawl_website`: run the crawl loop from a one-element frontier, empty
visited set and empty result, and return the page list. -/
def crawl_website (web : Url → Option FetchResult) (base_url : Url) (max_pages : Nat) :
    List PageData :=
  (crawl_loop web base_url max_pages [base_url] [] [] []).1

/-- The ghost fetch trace of the same crawl run (see `crawl_loop`). -/
def crawl_trace (web : Url → Option FetchResult) (base_url : Url) (max_pages : Nat) :
    List (Url × Bool) :=
  (crawl_loop web base_url max_pages [base_url] [] [] []).2

/-! ## The six category scorers

Each threshold chain of the source is factored into a `…_points` function
taking exactly the quantity the source branches on (an average or proportion
as a rational, or, where the source's `elif` tests the raw count, the count
and the page total). -/

/-- Content depth: `avg_words >= 1000 → 25, >= 500 → 20, >= 300 → 15, else 10`. -/
def content_depth_points (avg_words : ℚ) : Nat :=
  if avg_words ≥ 1000 then 25 else if avg_words ≥ 500 then 20
  else if avg_words ≥ 300 then 15 else 10

/-- Semantic richness: average heading count `>= 5 → 20, >= 3 → 15, else 10`. -/
def semantic_richness_points (avg_headings : ℚ) : Nat :=
  if avg_headings ≥ 5 then 20 else if avg_headings ≥ 3 then 15 else 10

/-- Readability: average paragraph count `>= 5 → 15, else 10`. -/
def readability_points (avg_paragraphs : ℚ) : Nat :=
  if avg_paragraphs ≥ 5 then 15 else 10

/-- Clean URLs: proportion `> 0.8 → 10, > 0.5 → 7, else 3`. -/
def clean_urls_points (prop : ℚ) : Nat :=
  if prop > 0.8 then 10 else if prop > 0.5 then 7 else 3

/-- Mobile friendly: proportion `> 0.8 → 15, > 0.5 → 10, else 5`. -/
def mobile_friendly_points (prop : ℚ) : Nat :=
  if prop > 0.8 then 15 else if prop > 0.5 then 10 else 5

/-- Page speed: average response time `< 1.0 → 15, < 2.0 → 10, else 5`. -/
def page_speed_points (avg_response_time : ℚ) : Nat :=
  if avg_response_time < 1 then 15 else if avg_response_time < 2 then 10 else 5

/-- Structured data: proportion `> 0.5 → 15`, else raw count `> 0 → 10`, else 0. -/
def structured_data_points (count n : Nat) : Nat :=
  if (count : ℚ) / n > 0.5 then 15 else if count > 0 then 10 else 0

/-- Semantic HTML: proportion `> 0.7 → 10, > 0.3 → 7, else 3`. -/
def semantic_html_points (prop : ℚ) : Nat :=
  if prop > 0.7 then 10 else if prop > 0.3 then 7 else 3

/-- Meta optimization: proportion `> 0.8 → 10, > 0.5 → 7, else 3`. -/
def meta_optimization_points (prop : ℚ) : Nat :=
  if prop > 0.8 then 10 else if prop > 0.5 then 7 else 3

/-- Question answering: proportion `> 0.3 → 10`, else raw count `> 0 → 7`,
else the initial 0. -/
def question_answering_points (count n : Nat) : Nat :=
  if (count : ℚ) / n > 0.3 then 10 else if count > 0 then 7 else 0

/-- Conversational content: proportion `> 0.5 → 10, > 0.2 → 7`, else the
initial 0. -/
def conversational_content_points (prop : ℚ) : Nat :=
  if prop > 0.5 then 10 else if prop > 0.2 then 7 else 0

/-- Contextual clarity: proportion `> 0.7 → 10, > 0.4 → 7`, else the
initial 0. -/
def contextual_clarity_points (prop : ℚ) : Nat :=
  if prop > 0.7 then 10 else if prop > 0.4 then 7 else 0

/-- Author info: proportion `> 0.5 → 7`, else raw count `> 0 → 4`, else 0. -/
def author_info_points (count n : Nat) : Nat :=
  if (count : ℚ) / n > 0.5 then 7 else if count > 0 then 4 else 0

/-- Credibility signals: proportion `> 0.3 → 8`, else raw count `> 0 → 5`,
else 0. -/
def credibility_signals_points (count n : Nat) : Nat :=
  if (count : ℚ) / n > 0.3 then 8 else if count > 0 then 5 else 0

/-- Content freshness: proportion `> 0.5 → 5`, else raw count `> 0 → 3`,
else 0. -/
def content_freshness_points (count n : Nat) : Nat :=
  if (count : ℚ) / n > 0.5 then 5 else if count > 0 then 3 else 0

/-- One category's entry in `self.detailed_results` (`score`, `max_score` and
the per-signal `details` dict, as an insertion-ordered association list). -/
structure CategoryResult where
  score : Nat
  max_score : Nat
  details : List (String × Nat)
  deriving DecidableEq, Repr

/-- The analyzer object's mutable state: the running `self.compliance_score`
accumulator and the `self.detailed_results` dict (an insertion-ordered
association list, like a Python dict). -/
structure AIComplianceSEOAnalyzer where
  compliance_score : Nat
  detailed_results : List (String × CategoryResult)
  deriving DecidableEq, Repr

/-- The state `__init__` sets up (score 0, no results). -/
def initAnalyzer : AIComplianceSEOAnalyzer := ⟨0, []⟩

/-- `self.detailed_results[key] = val` on an insertion-ordered dict: replace
the value in place when the key is present, append otherwise. -/
def upsert (key : String) (val : CategoryResult) :
    List (String × CategoryResult) → List (String × CategoryResult)
  | [] => [(key, val)]
  | (k, v) :: rest => if k = key then (key, val) :: rest else (k, v) :: upsert key val rest

/-- `sum(details.values())`. -/
def sum_values (details : List (String × Nat)) : Nat :=
  (details.map (fun d => d.2)).sum

/-- The file extensions the clean-URL check treats as unfriendly. -/
def unfriendly_extensions : List String :=
  [".php", ".html", ".htm", ".jsp", ".asp", ".aspx", ".cgi", ".pl", ".py", ".rb",
   ".do", ".action"]

/-- The per-page clean-URL test of `analyze_technical_performance`: the URL's
*path component* contains none of `?`, `&`, `=` (`re.search(r'[?&=]',
url_path)`) and ends in no unfriendly extension.  Note that the source
applies this to `urlparse(page['url']).path`, so a query string — which
`urlparse` separates from the path — can never make this test fail. -/
def is_clean_path (url_path : String) : Bool :=
  !(url_path.data.any (fun c => c = '?' || c = '&' || c = '=')) &&
  !(unfriendly_extensions.any (fun ext => ext.data.isSuffixOf url_path.data))

/-- `analyze_content_quality`.  On an empty crawl the source's
`total_headings / len(pages_data)` raises `ZeroDivisionError` before any
field of `self` is mutated; that is the `none` branch. -/
def analyze_content_quality (pages_data : List PageData)
    (self : AIComplianceSEOAnalyzer) : Option AIComplianceSEOAnalyzer :=
  let total_words := (pages_data.map (fun p => p.doc.words)).sum
  let total_headings := (pages_data.map (fun p => p.doc.headings16)).sum
  let total_paragraphs := (pages_data.map (fun p => p.doc.paragraphs)).sum
  if pages_data.length = 0 then none
  else
    let n : ℚ := pages_data.length
    let avg_words : ℚ := total_words / n
    let details : List (String × Nat) :=
      [("readability", readability_points ((total_paragraphs : ℚ) / n)),
       ("semantic_richness", semantic_richness_points ((total_headings : ℚ) / n)),
       ("content_depth", content_depth_points avg_words),
       ("keyword_optimization", 0)]
    let quality_score := sum_values details
    some { compliance_score := self.compliance_score + quality_score,
           detailed_results :=
             upsert "content_quality" ⟨quality_score, 80, details⟩ self.detailed_results }

/-- `analyze_technical_performance` (the start URL's scheme drives the SSL
signal; everything else is a per-page proportion; the division by
`len(pages_data)` raises on an empty crawl). -/
def analyze_technical_performance (url : Url) (pages_data : List PageData)
    (self : AIComplianceSEOAnalyzer) : Option AIComplianceSEOAnalyzer :=
  if pages_data.length = 0 then none
  else
    let n : ℚ := pages_data.length
    let ssl_security : Nat := if url.scheme = "https" then 10 else 0
    let clean_url_count := (pages_data.filter (fun p => is_clean_path p.url.path)).length
    let mobile_friendly_count := (pages_data.filter (fun p => p.doc.has_viewport)).length
    let response_times := pages_data.map (fun p => p.elapsed)
    let page_speed : Nat :=
      if response_times.isEmpty then 0
      else page_speed_points (response_times.sum / (response_times.length : ℚ))
    let details : List (String × Nat) :=
      [("ssl_security", ssl_security),
       ("page_speed", page_speed),
       ("mobile_friendly", mobile_friendly_points ((mobile_friendly_count : ℚ) / n)),
       ("clean_urls", clean_urls_points ((clean_url_count : ℚ) / n))]
    let tech_score := sum_values details
    some { compliance_score := self.compliance_score + tech_score,
           detailed_results :=
             upsert "technical_performance" ⟨tech_score, 50, details⟩ self.detailed_results }

/-- `analyze_semantic_structure`. -/
def analyze_semantic_structure (pages_data : List PageData)
    (self : AIComplianceSEOAnalyzer) : Option AIComplianceSEOAnalyzer :=
  if pages_data.length = 0 then none
  else
    let n : ℚ := pages_data.length
    let structured_data_count :=
      (pages_data.filter (fun p => p.doc.has_json_ld || p.doc.has_microdata)).length
    let semantic_html_count :=
      (pages_data.filter (fun p => decide (3 ≤ p.doc.semantic_elements))).length
    let meta_optimized_count :=
      (pages_data.filter
        (fun p => p.doc.has_title && p.doc.has_meta_desc && decide (10 < p.doc.title_len))).length
    let details : List (String × Nat) :=
      [("structured_data", structured_data_points structured_data_count pages_data.length),
       ("semantic_html", semantic_html_points ((semantic_html_count : ℚ) / n)),
       ("meta_optimization", meta_optimization_points ((meta_optimized_count : ℚ) / n))]
    let semantic_score := sum_values details
    some { compliance_score := self.compliance_score + semantic_score,
           detailed_results :=
             upsert "semantic_structure" ⟨semantic_score, 35, details⟩ self.detailed_results }

/-- `analyze_ai_readiness`. -/
def analyze_ai_readiness (pages_data : List PageData)
    (self : AIComplianceSEOAnalyzer) : Option AIComplianceSEOAnalyzer :=
  if pages_data.length = 0 then none
  else
    let n : ℚ := pages_data.length
    let question_pages := (pages_data.filter (fun p => p.doc.has_question)).length
    let conversational_pages := (pages_data.filter (fun p => p.doc.conversational)).length
    let clear_context_pages :=
      (pages_data.filter (fun p => decide (3 ≤ p.doc.headings13))).length
    let details : List (String × Nat) :=
      [("conversational_content", conversational_content_points ((conversational_pages : ℚ) / n)),
       ("question_answering", question_answering_points question_pages pages_data.length),
       ("contextual_clarity", contextual_clarity_points ((clear_context_pages : ℚ) / n))]
    let ai_score := sum_values details
    some { compliance_score := self.compliance_score + ai_score,
           detailed_results :=
             upsert "ai_readiness" ⟨ai_score, 30, details⟩ self.detailed_results }

/-- `analyze_eat_factors`. -/
def analyze_eat_factors (pages_data : List PageData)
    (self : AIComplianceSEOAnalyzer) : Option AIComplianceSEOAnalyzer :=
  if pages_data.length = 0 then none
  else
    let author_pages := (pages_data.filter (fun p => p.doc.has_author)).length
    let credibility_pages := (pages_data.filter (fun p => p.doc.has_credibility)).length
    let date_pages := (pages_data.filter (fun p => p.doc.has_date)).length
    let details : List (String × Nat) :=
      [("author_info", author_info_points author_pages pages_data.length),
       ("credibility_signals", credibility_signals_points credibility_pages pages_data.length),
       ("content_freshness", content_freshness_points date_pages pages_data.length)]
    let eat_score := sum_values details
    some { compliance_score := self.compliance_score + eat_score,
           detailed_results :=
             upsert "eat_factors" ⟨eat_score, 20, details⟩ self.detailed_results }

/-- `analyze_mobile_ai_optimization`: an independent re-fetch of the start
URL.  A fetch exception is caught inside the scorer (both details stay 0);
on any response — the status code is never checked here — the viewport and
latency signals are read off. -/
def analyze_mobile_ai_optimization (web : Url → Option FetchResult) (url : Url)
    (self : AIComplianceSEOAnalyzer) : AIComplianceSEOAnalyzer :=
  let details : List (String × Nat) :=
    match web url with
    | none => [("responsive_design", 0), ("core_web_vitals", 0)]
    | some response =>
      [("responsive_design", if response.doc.viewport_device_width then 10 else 0),
       ("core_web_vitals", if response.elapsed < 2 then 5 else 0)]
  let mobile_score := sum_values details
  { compliance_score := self.compliance_score + mobile_score,
    detailed_results :=
      upsert "mobile_ai_optimization" ⟨mobile_score, 15, details⟩ self.detailed_results }

/-! ## Report aggregation -/

/-- `round(x, 1)`.  Python rounds half to even; the argument's tenths are
exact in every reachable call (the percentage is 0.4 times an integer), so no
halfway case ever arises and `round` agrees with Python there. -/
def round1 (x : ℚ) : ℚ := (round (x * 10) : ℚ) / 10

/-- The tier chain of `generate_compliance_report`: compliance level and
recommendation from the (unrounded) percentage score. -/
def compliance_level_and_recommendation (percentage_score : ℚ) : String × String :=
  if percentage_score ≥ 80 then
    ("🟢 EXCELLENT", "Your website is highly AI-compliant!")
  else if percentage_score ≥ 60 then
    ("🟡 GOOD", "Good compliance with room for improvement.")
  else if percentage_score ≥ 40 then
    ("🟠 MODERATE", "Moderate compliance - several areas need attention.")
  else
    ("🔴 POOR", "Poor compliance - significant improvements needed.")

/-- The six per-category remediation sentences and the two maintain
sentences of `generate_priority_actions`. -/
def content_quality_action : String :=
  "Improve content depth and semantic richness with longer, well-structured articles"

def technical_performance_action : String :=
  "Optimize page speed, implement SSL, and ensure mobile-friendly design"

def semantic_structure_action : String :=
  "Add structured data markup and improve semantic HTML structure"

def ai_readiness_action : String :=
  "Create more conversational, question-answering content for AI engines"

def eat_factors_action : String :=
  "Add author information, credibility signals, and update content dates"

def mobile_ai_optimization_action : String :=
  "Improve mobile responsiveness and Core Web Vitals performance"

def maintain_action_1 : String :=
  "Continue monitoring and maintaining current high standards"

def maintain_action_2 : String :=
  "Focus on creating fresh, expert content regularly"

/-- `generate_priority_actions`: walk `self.detailed_results` in insertion
order, appending the category's fixed sentence when `score / max_score * 100
< 50`; when nothing was appended, emit the two maintain sentences; finally
truncate to 5 (`actions[:5]`).  In every reachable state `max_score` is one
of the fixed non-zero constants, so the division never raises. -/
def generate_priority_actions (detailed_results : List (String × CategoryResult)) :
    List String :=
  let actions := detailed_results.foldl (fun actions cat_data =>
    let category := cat_data.1
    let data := cat_data.2
    let percentage : ℚ := ((data.score : ℚ) / (data.max_score : ℚ)) * 100
    if percentage < 50 then
      if category = "content_quality" then actions ++ [content_quality_action]
      else if category = "technical_performance" then actions ++ [technical_performance_action]
      else if category = "semantic_structure" then actions ++ [semantic_structure_action]
      else if category = "ai_readiness" then actions ++ [ai_readiness_action]
      else if category = "eat_factors" then actions ++ [eat_factors_action]
      else if category = "mobile_ai_optimization" then
        actions ++ [mobile_ai_optimization_action]
      else actions
    else actions) []
  let actions := if actions.isEmpty then [maintain_action_1, maintain_action_2] else actions
  actions.take 5

/-- The final report (`analysis_date` omitted, see the module docstring). -/
structure ComplianceReport where
  url : Url
  overall_score : ℚ
  compliance_level : String
  recommendation : String
  detailed_scores : List (String × CategoryResult)
  priority_actions : List String
  deriving DecidableEq, Repr

/-- `generate_compliance_report`: percentage from the running accumulator
over the fixed denominator 250, tier chain, rounded overall score. -/
def generate_compliance_report (self : AIComplianceSEOAnalyzer) (url : Url) :
    ComplianceReport :=
  let percentage_score : ℚ := ((self.compliance_score : ℚ) / 250) * 100
  let lr := compliance_level_and_recommendation percentage_score
  { url := url,
    overall_score := round1 percentage_score,
    compliance_level := lr.1,
    recommendation := lr.2,
    detailed_scores := self.detailed_results,
    priority_actions := generate_priority_actions self.detailed_results }

/-- `analyze_website`: crawl, run the six scorers in order, aggregate.  The
`try/except` returns `None` on the first scorer failure (empty crawl); the
state mutations already performed persist on the instance. -/
def analyze_website (web : Url → Option FetchResult) (url : Url) (max_pages : Nat)
    (self : AIComplianceSEOAnalyzer) :
    AIComplianceSEOAnalyzer × Option ComplianceReport :=
  let pages_data := crawl_website web url max_pages
  match analyze_content_quality pages_data self with
  | none => (self, none)
  | some s1 =>
    match analyze_technical_performance url pages_data s1 with
    | none => (s1, none)
    | some s2 =>
      match analyze_semantic_structure pages_data s2 with
      | none => (s2, none)
      | some s3 =>
        match analyze_ai_readiness pages_data s3 with
        | none => (s3, none)
        | some s4 =>
          match analyze_eat_factors pages_data s4 with
          | none => (s4, none)
          | some s5 =>
            let s6 := analyze_mobile_ai_optimization web url s5
            (s6, some (generate_compliance_report s6 url))

/-- The sum of the `score` fields of a results list. -/
def sumScores (results : List (String × CategoryResult)) : Nat :=
  (results.map (fun r => r.2.score)).sum

/-! ## Helper lemmas -/

theorem lookup_upsert (k : String) (v : CategoryResult)
    (l : List (String × CategoryResult)) : (upsert k v l).lookup k = some v := by
  induction l with
  | nil => simp [upsert, List.lookup]
  | cons hd tl ih =>
    obtain ⟨k', v'⟩ := hd
    by_cases hk : k' = k
    · simp [upsert, hk, List.lookup]
    · simp only [upsert, hk, if_false, List.lookup]
      have : (k == k') = false := by
        simp [Ne.symm hk]
      simp [this, ih]

theorem readability_points_range (a : ℚ) :
    10 ≤ readability_points a ∧ readability_points a ≤ 15 := by
  unfold readability_points; split_ifs <;> omega

theorem semantic_richness_points_range (a : ℚ) :
    10 ≤ semantic_richness_points a ∧ semantic_richness_points a ≤ 20 := by
  unfold semantic_richness_points; split_ifs <;> omega

theorem content_depth_points_range (a : ℚ) :
    10 ≤ content_depth_points a ∧ content_depth_points a ≤ 25 := by
  unfold content_depth_points; split_ifs <;> omega

theorem clean_urls_points_range (a : ℚ) :
    3 ≤ clean_urls_points a ∧ clean_urls_points a ≤ 10 := by
  unfold clean_urls_points; split_ifs <;> omega

theorem mobile_friendly_points_range (a : ℚ) :
    5 ≤ mobile_friendly_points a ∧ mobile_friendly_points a ≤ 15 := by
  unfold mobile_friendly_points; split_ifs <;> omega

theorem page_speed_points_range (a : ℚ) :
    5 ≤ page_speed_points a ∧ page_speed_points a ≤ 15 := by
  unfold page_speed_points; split_ifs <;> omega

theorem structured_data_points_range (c n : Nat) :
    structured_data_points c n ≤ 15 := by
  unfold structured_data_points; split_ifs <;> omega

theorem semantic_html_points_range (a : ℚ) :
    3 ≤ semantic_html_points a ∧ semantic_html_points a ≤ 10 := by
  unfold semantic_html_points; split_ifs <;> omega

theorem meta_optimization_points_range (a : ℚ) :
    3 ≤ meta_optimization_points a ∧ meta_optimization_points a ≤ 10 := by
  unfold meta_optimization_points; split_ifs <;> omega

theorem question_answering_points_range (c n : Nat) :
    question_answering_points c n ≤ 10 := by
  unfold question_answering_points; split_ifs <;> omega

theorem conversational_content_points_range (a : ℚ) :
    conversational_content_points a ≤ 10 := by
  unfold conversational_content_points; split_ifs <;> omega

theorem contextual_clarity_points_range (a : ℚ) :
    contextual_clarity_points a ≤ 10 := by
  unfold contextual_clarity_points; split_ifs <;> omega

theorem author_info_points_range (c n : Nat) : author_info_points c n ≤ 7 := by
  unfold author_info_points; split_ifs <;> omega

theorem credibility_signals_points_range (c n : Nat) :
    credibility_signals_points c n ≤ 8 := by
  unfold credibility_signals_points; split_ifs <;> omega

theorem content_freshness_points_range (c n : Nat) :
    content_freshness_points c n ≤ 5 := by
  unfold content_freshness_points; split_ifs <;> omega

/-- Dividing by a (cast) natural preserves order of numerators. -/
theorem natDiv_mono (n a b : Nat) (hab : a ≤ b) :
    (a : ℚ) / (n : ℚ) ≤ (b : ℚ) / (n : ℚ) := by
  rcases Nat.eq_zero_or_pos n with h0 | h0
  · simp [h0]
  · have hn : (0 : ℚ) < (n : ℚ) := by exact_mod_cast h0
    exact (div_le_div_iff_of_pos_right hn).mpr (by exact_mod_cast hab)

/-- The percentage `m / 250 * 100` has exact tenths (`m * 0.4`); rounding to
one decimal is the identity on it. -/
theorem round1_nat (m : Nat) : round1 (((m : ℚ) / 250) * 100) = (2 * m : ℚ) / 5 := by
  unfold round1
  have h : ((m : ℚ) / 250) * 100 * 10 = ((4 * m : ℕ) : ℚ) := by push_cast; ring
  rw [h, round_natCast]
  push_cast; ring

/-- Sum bounds for the content-quality details list. -/
theorem cq_sum_bounds (a b c : ℚ) :
    30 ≤ sum_values [("readability", readability_points a),
      ("semantic_richness", semantic_richness_points b),
      ("content_depth", content_depth_points c),
      ("keyword_optimization", 0)] ∧
    sum_values [("readability", readability_points a),
      ("semantic_richness", semantic_richness_points b),
      ("content_depth", content_depth_points c),
      ("keyword_optimization", 0)] ≤ 60 := by
  have h1 := readability_points_range a
  have h2 := semantic_richness_points_range b
  have h3 := content_depth_points_range c
  simp only [sum_values, List.map_cons, List.map_nil, List.sum_cons, List.sum_nil]
  omega

/-- Success characterization of `analyze_content_quality`: it adds a category
result with `max_score` 80 whose score is the sum of the three threshold
signals plus the never-assigned `keyword_optimization` 0, hence in
`[30, 60]`. -/
theorem analyze_content_quality_spec (pages_data : List PageData)
    (s s' : AIComplianceSEOAnalyzer)
    (h : analyze_content_quality pages_data s = some s') :
    ∃ r : CategoryResult,
      s'.detailed_results = upsert "content_quality" r s.detailed_results ∧
      s'.compliance_score = s.compliance_score + r.score ∧
      r.max_score = 80 ∧ 30 ≤ r.score ∧ r.score ≤ 60 ∧
      r.details.lookup "keyword_optimization" = some 0 := by
  unfold analyze_content_quality at h
  simp only [] at h
  split at h
  · exact absurd h (by simp)
  · injection h with h
    subst h
    refine ⟨_, rfl, rfl, rfl, (cq_sum_bounds _ _ _).1, (cq_sum_bounds _ _ _).2, ?_⟩
    simp [List.lookup]

/-- Sum bound for the technical-performance details list. -/
theorem tp_sum_bounds (p : Prop) [Decidable p] (eb : Bool) (a b c : ℚ) :
    sum_values [("ssl_security", if p then 10 else 0),
      ("page_speed", if eb = true then 0 else page_speed_points a),
      ("mobile_friendly", mobile_friendly_points b),
      ("clean_urls", clean_urls_points c)] ≤ 50 := by
  have h1 := page_speed_points_range a
  have h2 := mobile_friendly_points_range b
  have h3 := clean_urls_points_range c
  simp only [sum_values, List.map_cons, List.map_nil, List.sum_cons, List.sum_nil]
  split_ifs <;> omega

/-- Success characterization of `analyze_technical_performance`. -/
theorem analyze_technical_performance_spec (url : Url) (pages_data : List PageData)
    (s s' : AIComplianceSEOAnalyzer)
    (h : analyze_technical_performance url pages_data s = some s') :
    ∃ r : CategoryResult,
      s'.detailed_results = upsert "technical_performance" r s.detailed_results ∧
      s'.compliance_score = s.compliance_score + r.score ∧
      r.max_score = 50 ∧ r.score ≤ 50 := by
  unfold analyze_technical_performance at h
  simp only [] at h
  split at h
  · exact absurd h (by simp)
  · injection h with h
    subst h
    exact ⟨_, rfl, rfl, rfl, tp_sum_bounds _ _ _ _ _⟩

/-- Sum bound for the semantic-structure details list. -/
theorem ss_sum_bounds (c n : Nat) (a b : ℚ) :
    sum_values [("structured_data", structured_data_points c n),
      ("semantic_html", semantic_html_points a),
      ("meta_optimization", meta_optimization_points b)] ≤ 35 := by
  have h1 := structured_data_points_range c n
  have h2 := semantic_html_points_range a
  have h3 := meta_optimization_points_range b
  simp only [sum_values, List.map_cons, List.map_nil, List.sum_cons, List.sum_nil]
  omega

/-- Success characterization of `analyze_semantic_structure`. -/
theorem analyze_semantic_structure_spec (pages_data : List PageData)
    (s s' : AIComplianceSEOAnalyzer)
    (h : analyze_semantic_structure pages_data s = some s') :
    ∃ r : CategoryResult,
      s'.detailed_results = upsert "semantic_structure" r s.detailed_results ∧
      s'.compliance_score = s.compliance_score + r.score ∧
      r.max_score = 35 ∧ r.score ≤ 35 := by
  unfold analyze_semantic_structure at h
  simp only [] at h
  split at h
  · exact absurd h (by simp)
  · injection h with h
    subst h
    exact ⟨_, rfl, rfl, rfl, ss_sum_bounds _ _ _ _⟩

/-- Sum bound for the AI-readiness details list. -/
theorem ai_sum_bounds (a : ℚ) (c n : Nat) (b : ℚ) :
    sum_values [("conversational_content", conversational_content_points a),
      ("question_answering", question_answering_points c n),
      ("contextual_clarity", contextual_clarity_points b)] ≤ 30 := by
  have h1 := conversational_content_points_range a
  have h2 := question_answering_points_range c n
  have h3 := contextual_clarity_points_range b
  simp only [sum_values, List.map_cons, List.map_nil, List.sum_cons, List.sum_nil]
  omega

/-- Success characterization of `analyze_ai_readiness`. -/
theorem analyze_ai_readiness_spec (pages_data : List PageData)
    (s s' : AIComplianceSEOAnalyzer)
    (h : analyze_ai_readiness pages_data s = some s') :
    ∃ r : CategoryResult,
      s'.detailed_results = upsert "ai_readiness" r s.detailed_results ∧
      s'.compliance_score = s.compliance_score + r.score ∧
      r.max_score = 30 ∧ r.score ≤ 30 := by
  unfold analyze_ai_readiness at h
  simp only [] at h
  split at h
  · exact absurd h (by simp)
  · injection h with h
    subst h
    exact ⟨_, rfl, rfl, rfl, ai_sum_bounds _ _ _ _⟩

/-- Sum bound for the E-E-A-T details list. -/
theorem eat_sum_bounds (c1 n1 c2 n2 c3 n3 : Nat) :
    sum_values [("author_info", author_info_points c1 n1),
      ("credibility_signals", credibility_signals_points c2 n2),
      ("content_freshness", content_freshness_points c3 n3)] ≤ 20 := by
  have h1 := author_info_points_range c1 n1
  have h2 := credibility_signals_points_range c2 n2
  have h3 := content_freshness_points_range c3 n3
  simp only [sum_values, List.map_cons, List.map_nil, List.sum_cons, List.sum_nil]
  omega

/-- Success characterization of `analyze_eat_factors`. -/
theorem analyze_eat_factors_spec (pages_data : List PageData)
    (s s' : AIComplianceSEOAnalyzer)
    (h : analyze_eat_factors pages_data s = some s') :
    ∃ r : CategoryResult,
      s'.detailed_results = upsert "eat_factors" r s.detailed_results ∧
      s'.compliance_score = s.compliance_score + r.score ∧
      r.max_score = 20 ∧ r.score ≤ 20 := by
  unfold analyze_eat_factors at h
  simp only [] at h
  split at h
  · exact absurd h (by simp)
  · injection h with h
    subst h
    exact ⟨_, rfl, rfl, rfl, eat_sum_bounds _ _ _ _ _ _⟩

/-- Characterization of `analyze_mobile_ai_optimization` (total: a re-fetch
failure is caught inside the scorer). -/
theorem analyze_mobile_ai_optimization_spec (web : Url → Option FetchResult)
    (url : Url) (s : AIComplianceSEOAnalyzer) :
    ∃ r : CategoryResult,
      (analyze_mobile_ai_optimization web url s).detailed_results =
        upsert "mobile_ai_optimization" r s.detailed_results ∧
      (analyze_mobile_ai_optimization web url s).compliance_score =
        s.compliance_score + r.score ∧
      r.max_score = 15 ∧ r.score ≤ 15 := by
  unfold analyze_mobile_ai_optimization
  cases hw : web url with
  | none => exact ⟨_, rfl, rfl, rfl, by simp [sum_values]⟩
  | some response =>
    refine ⟨_, rfl, rfl, rfl, ?_⟩
    simp only [sum_values, List.map_cons, List.map_nil, List.sum_cons, List.sum_nil]
    split_ifs <;> omega

/-- Success characterization of a whole `analyze_website` run: the six
scorers contribute six category results (each within its declared maximum)
to the accumulator and the results dict, and the report is generated from
the final state. -/
theorem analyze_website_spec (web : Url → Option FetchResult) (url : Url)
    (max_pages : Nat) (s s' : AIComplianceSEOAnalyzer) (rep : ComplianceReport)
    (h : analyze_website web url max_pages s = (s', some rep)) :
    ∃ r1 r2 r3 r4 r5 r6 : CategoryResult,
      r1.max_score = 80 ∧ 30 ≤ r1.score ∧ r1.score ≤ 60 ∧
      r2.max_score = 50 ∧ r2.score ≤ 50 ∧
      r3.max_score = 35 ∧ r3.score ≤ 35 ∧
      r4.max_score = 30 ∧ r4.score ≤ 30 ∧
      r5.max_score = 20 ∧ r5.score ≤ 20 ∧
      r6.max_score = 15 ∧ r6.score ≤ 15 ∧
      s'.compliance_score = s.compliance_score + r1.score + r2.score + r3.score
        + r4.score + r5.score + r6.score ∧
      s'.detailed_results =
        upsert "mobile_ai_optimization" r6 (upsert "eat_factors" r5
          (upsert "ai_readiness" r4 (upsert "semantic_structure" r3
            (upsert "technical_performance" r2
              (upsert "content_quality" r1 s.detailed_results))))) ∧
      rep = generate_compliance_report s' url := by
  unfold analyze_website at h
  simp only [] at h
  cases h1 : analyze_content_quality (crawl_website web url max_pages) s with
  | none => rw [h1] at h; exact absurd h (by simp)
  | some s1 =>
  rw [h1] at h
  simp only [] at h
  cases h2 : analyze_technical_performance url (crawl_website web url max_pages) s1 with
  | none => rw [h2] at h; exact absurd h (by simp)
  | some s2 =>
  rw [h2] at h
  simp only [] at h
  cases h3 : analyze_semantic_structure (crawl_website web url max_pages) s2 with
  | none => rw [h3] at h; exact absurd h (by simp)
  | some s3 =>
  rw [h3] at h
  simp only [] at h
  cases h4 : analyze_ai_readiness (crawl_website web url max_pages) s3 with
  | none => rw [h4] at h; exact absurd h (by simp)
  | some s4 =>
  rw [h4] at h
  simp only [] at h
  cases h5 : analyze_eat_factors (crawl_website web url max_pages) s4 with
  | none => rw [h5] at h; exact absurd h (by simp)
  | some s5 =>
  rw [h5] at h
  simp only [] at h
  simp only [Prod.mk.injEq, Option.some.injEq] at h
  obtain ⟨hs6, hrep⟩ := h
  obtain ⟨r1, hd1, hc1, hm1, hlo1, hhi1, _⟩ := analyze_content_quality_spec _ _ _ h1
  obtain ⟨r2, hd2, hc2, hm2, hhi2⟩ := analyze_technical_performance_spec _ _ _ _ h2
  obtain ⟨r3, hd3, hc3, hm3, hhi3⟩ := analyze_semantic_structure_spec _ _ _ h3
  obtain ⟨r4, hd4, hc4, hm4, hhi4⟩ := analyze_ai_readiness_spec _ _ _ h4
  obtain ⟨r5, hd5, hc5, hm5, hhi5⟩ := analyze_eat_factors_spec _ _ _ h5
  obtain ⟨r6, hd6, hc6, hm6, hhi6⟩ := analyze_mobile_ai_optimization_spec web url s5
  refine ⟨r1, r2, r3, r4, r5, r6, hm1, hlo1, hhi1, hm2, hhi2, hm3, hhi3, hm4, hhi4,
    hm5, hhi5, hm6, hhi6, ?_, ?_, ?_⟩
  · rw [← hs6, hc6, hc5, hc4, hc3, hc2, hc1]
  · rw [← hs6, hd6, hd5, hd4, hd3, hd2, hd1]
  · rw [← hrep, hs6]

/-- Crawl-loop invariant: the page list never grows beyond `max_pages`. -/
theorem crawl_loop_length (web : Url → Option FetchResult) (base_url : Url)
    (max_pages : Nat) :
    ∀ (to_visit visited : List Url) (pages_data : List PageData)
      (trace : List (Url × Bool)),
      pages_data.length ≤ max_pages →
      ((crawl_loop web base_url max_pages to_visit visited pages_data trace).1).length
        ≤ max_pages := by
  apply crawl_loop.induct web base_url max_pages
  · intro visited pages_data trace h
    simpa [crawl_loop] using h
  · intro visited pages_data trace url rest hfull h
    simpa [crawl_loop, hfull] using h
  · intro visited pages_data trace url rest hfull hv ih h
    simpa [crawl_loop, hfull, hv] using ih h
  · intro visited pages_data trace url rest hfull hv hw ih h
    simpa [crawl_loop, hfull, hv, hw] using ih h
  · intro visited pages_data trace url rest hfull hv response hw hst
    intro page_data pages' visited' new_links ih h
    have hlen : pages'.length ≤ max_pages := by
      simp only [pages', List.length_append, List.length_cons, List.length_nil]
      omega
    simp only [page_data, pages', visited', new_links] at ih
    simpa [crawl_loop, hfull, hv, hw, hst] using ih hlen
  · intro visited pages_data trace url rest hfull hv response hw hst ih h
    simpa [crawl_loop, hfull, hv, hw, hst] using ih h

/-- Crawl-loop invariant: when every frontier URL and every already-accepted
page has the start URL's netloc or an empty netloc, so does every page of the
final result (newly enqueued links enter the frontier only through the
`is_internal_link` filter, which enforces exactly this disjunction). -/
theorem crawl_loop_internal (web : Url → Option FetchResult) (base_url : Url)
    (max_pages : Nat) :
    ∀ (to_visit visited : List Url) (pages_data : List PageData)
      (trace : List (Url × Bool)),
      (∀ u ∈ to_visit, u.netloc = base_url.netloc ∨ u.netloc = "") →
      (∀ p ∈ pages_data, p.url.netloc = base_url.netloc ∨ p.url.netloc = "") →
      ∀ p ∈ (crawl_loop web base_url max_pages to_visit visited pages_data trace).1,
        p.url.netloc = base_url.netloc ∨ p.url.netloc = "" := by
  apply crawl_loop.induct web base_url max_pages
  · intro visited pages_data trace _ hp
    simpa [crawl_loop] using hp
  · intro visited pages_data trace url rest hfull _ hp
    simpa [crawl_loop, hfull] using hp
  · intro visited pages_data trace url rest hfull hv ih ht hp
    have ht' : ∀ u ∈ rest, u.netloc = base_url.netloc ∨ u.netloc = "" := by
      intro u hu; exact ht u (List.mem_cons_of_mem _ hu)
    simpa [crawl_loop, hfull, hv] using ih ht' hp
  · intro visited pages_data trace url rest hfull hv hw ih ht hp
    have ht' : ∀ u ∈ rest, u.netloc = base_url.netloc ∨ u.netloc = "" := by
      intro u hu; exact ht u (List.mem_cons_of_mem _ hu)
    simpa [crawl_loop, hfull, hv, hw] using ih ht' hp
  · intro visited pages_data trace url rest hfull hv response hw hst
    intro page_data pages' visited' new_links ih ht hp
    simp only [page_data, pages', visited', new_links] at ih
    have ht' : ∀ u ∈ rest ++ (if (pages_data ++
          [(⟨url, response.doc, response.elapsed, response.status_code⟩ : PageData)]).length
            < max_pages then
          ((response.doc.links.take 5).map (urljoin url)).filter
            (fun v => is_internal_link base_url v && !(decide (v ∈ visited ++ [url])))
        else []), u.netloc = base_url.netloc ∨ u.netloc = "" := by
      intro u hu
      rcases List.mem_append.mp hu with hu | hu
      · exact ht u (List.mem_cons_of_mem _ hu)
      · rcases Nat.lt_or_ge (pages_data ++
            [(⟨url, response.doc, response.elapsed, response.status_code⟩ : PageData)]).length
            max_pages with hcase | hcase
        · rw [if_pos hcase] at hu
          have hmem := List.of_mem_filter hu
          simp only [is_internal_link, Bool.and_eq_true, Bool.or_eq_true,
            decide_eq_true_eq, Bool.not_eq_true'] at hmem
          rcases hmem.1 with h | h
          · left; exact h.symm
          · right; exact h
        · rw [if_neg (Nat.not_lt.mpr hcase)] at hu
          simp at hu
    have hp' : ∀ p ∈ pages_data ++
        [(⟨url, response.doc, response.elapsed, response.status_code⟩ : PageData)],
        p.url.netloc = base_url.netloc ∨ p.url.netloc = "" := by
      intro p hpp
      rcases List.mem_append.mp hpp with hpp | hpp
      · exact hp p hpp
      · simp at hpp
        subst hpp
        exact ht url (List.mem_cons_self _ _)
    simpa [crawl_loop, hfull, hv, hw, hst] using ih ht' hp'
  · intro visited pages_data trace url rest hfull hv response hw hst ih ht hp
    have ht' : ∀ u ∈ rest, u.netloc = base_url.netloc ∨ u.netloc = "" := by
      intro u hu; exact ht u (List.mem_cons_of_mem _ hu)
    simpa [crawl_loop, hfull, hv, hw, hst] using ih ht' hp

/-- Crawl-loop invariant for fetch uniqueness: provided the visited set is
duplicate-free, lists exactly the URLs of the accepted pages, and exactly the
URLs of the successful entries of the fetch trace, the final page list and
the final successful-fetch trace are duplicate-free.  (A fetch is issued only
for URLs outside `visited`, and only successful fetches enter `visited`.) -/
theorem crawl_loop_nodup (web : Url → Option FetchResult) (base_url : Url)
    (max_pages : Nat) :
    ∀ (to_visit visited : List Url) (pages_data : List PageData)
      (trace : List (Url × Bool)),
      visited.Nodup →
      pages_data.map (fun p => p.url) = visited →
      (trace.filter (fun e => e.2)).map (fun e => e.1) = visited →
      ((crawl_loop web base_url max_pages to_visit visited pages_data trace).1.map
        (fun p => p.url)).Nodup ∧
      (((crawl_loop web base_url max_pages to_visit visited pages_data trace).2.filter
        (fun e => e.2)).map (fun e => e.1)).Nodup := by
  apply crawl_loop.induct web base_url max_pages
  · intro visited pages_data trace hnd hpv htv
    constructor
    · simpa [crawl_loop, hpv] using hnd
    · simpa [crawl_loop, htv] using hnd
  · intro visited pages_data trace url rest hfull hnd hpv htv
    constructor
    · simpa [crawl_loop, hfull, hpv] using hnd
    · simpa [crawl_loop, hfull, htv] using hnd
  · intro visited pages_data trace url rest hfull hv ih hnd hpv htv
    simpa [crawl_loop, hfull, hv] using ih hnd hpv htv
  · intro visited pages_data trace url rest hfull hv hw ih hnd hpv htv
    have htv' : ((trace ++ [(url, false)]).filter (fun e => e.2)).map (fun e => e.1)
        = visited := by
      simp [List.filter_append, htv]
    simpa [crawl_loop, hfull, hv, hw] using ih hnd hpv htv'
  · intro visited pages_data trace url rest hfull hv response hw hst
    intro page_data pages' visited' new_links ih hnd hpv htv
    simp only [page_data, pages', visited', new_links] at ih
    have hnd' : (visited ++ [url]).Nodup := by
      simp [List.nodup_append, hnd, hv]
    have hpv' : ((pages_data ++
        [(⟨url, response.doc, response.elapsed, response.status_code⟩ : PageData)]).map
        (fun p => p.url)) = visited ++ [url] := by
      simp [hpv]
    have htv' : (((trace ++ [(url, true)]).filter (fun e => e.2)).map (fun e => e.1))
        = visited ++ [url] := by
      simp [List.filter_append, htv]
    simpa [crawl_loop, hfull, hv, hw, hst] using ih hnd' hpv' htv'
  · intro visited pages_data trace url rest hfull hv response hw hst ih hnd hpv htv
    have htv' : ((trace ++ [(url, false)]).filter (fun e => e.2)).map (fun e => e.1)
        = visited := by
      simp [List.filter_append, htv]
    simpa [crawl_loop, hfull, hv, hw, hst] using ih hnd hpv htv'

/-! ## Concrete fixtures

A tiny concrete web used by the concrete evaluations: one page at
`http://example.com/page?id=1` with 50 words and no other signals (the
floor scenario of the spec), a variant whose start page links twice to a
URL whose fetch always fails, and a web where every fetch fails. -/

/-- The floor-scenario document: 50 words, no headings, no paragraphs, no
links, and every boolean signal absent. -/
def floorDoc : Doc :=
  { words := 50, headings16 := 0, headings13 := 0, paragraphs := 0, links := [],
    has_viewport := false, viewport_device_width := false, has_json_ld := false,
    has_microdata := false, semantic_elements := 0, has_title := false,
    title_len := 0, has_meta_desc := false, has_question := false,
    conversational := false, has_author := false, has_credibility := false,
    has_date := false }

/-- The floor-scenario start URL: non-HTTPS and carrying a query string. -/
def floorUrl : Url := ⟨"http", "example.com", "/page", "id=1"⟩

/-- The floor-scenario web: the start URL answers 200 in 3 seconds with
`floorDoc`; everything else fails. -/
def floorWeb : Url → Option FetchResult := fun u =>
  if u = floorUrl then some ⟨200, 3, floorDoc⟩ else none

/-- The page the floor-scenario crawl collects. -/
def floorPage : PageData := ⟨floorUrl, floorDoc, 3, 200⟩

/-- A URL whose fetch always fails in `dupWeb`. -/
def brokenUrl : Url := ⟨"http", "example.com", "/broken", ""⟩

/-- A web whose start page links twice to `brokenUrl`, whose fetch raises. -/
def dupWeb : Url → Option FetchResult := fun u =>
  if u = floorUrl then
    some ⟨200, 3, { floorDoc with links := [.abs brokenUrl, .abs brokenUrl] }⟩
  else none

/-- A web where every fetch raises. -/
def deadWeb : Url → Option FetchResult := fun _ => none

theorem floor_crawl : crawl_website floorWeb floorUrl 5 = [floorPage] := by
  simp [crawl_website, crawl_loop, floorWeb, floorDoc, floorPage]

theorem dead_crawl : crawl_website deadWeb floorUrl 3 = [] := by
  simp [crawl_website, crawl_loop, deadWeb]

theorem dup_trace :
    crawl_trace dupWeb floorUrl 10 =
      [(floorUrl, true), (brokenUrl, false), (brokenUrl, false)] := by
  simp [crawl_trace, crawl_loop, dupWeb, floorUrl, brokenUrl, floorDoc, urljoin,
    is_internal_link]


/-- The floor-scenario path is clean (it carries no query characters — the
query string lives in `Url.query`, not in the path). -/
theorem is_clean_path_floor : is_clean_path "/page" = true := by decide

/-- The six category results of the floor-scenario run. -/
def floorResults : List (String × CategoryResult) :=
  [("content_quality", ⟨30, 80, [("readability", 10), ("semantic_richness", 10),
      ("content_depth", 10), ("keyword_optimization", 0)]⟩),
   ("technical_performance", ⟨20, 50, [("ssl_security", 0), ("page_speed", 5),
      ("mobile_friendly", 5), ("clean_urls", 10)]⟩),
   ("semantic_structure", ⟨6, 35, [("structured_data", 0), ("semantic_html", 3),
      ("meta_optimization", 3)]⟩),
   ("ai_readiness", ⟨0, 30, [("conversational_content", 0), ("question_answering", 0),
      ("contextual_clarity", 0)]⟩),
   ("eat_factors", ⟨0, 20, [("author_info", 0), ("credibility_signals", 0),
      ("content_freshness", 0)]⟩),
   ("mobile_ai_optimization", ⟨0, 15, [("responsive_design", 0),
      ("core_web_vitals", 0)]⟩)]

/-- The five priority actions of the floor-scenario run (all six categories
qualify; `actions[:5]` drops the sixth). -/
def floorActions : List String :=
  [content_quality_action, technical_performance_action, semantic_structure_action,
   ai_readiness_action, eat_factors_action]

/-- Analyzer state after the first floor-scenario run. -/
def runState1 : AIComplianceSEOAnalyzer := ⟨56, floorResults⟩

/-- Report of the first floor-scenario run (56 / 250 = 22.4 %). -/
def runReport1 : ComplianceReport :=
  ⟨floorUrl, 112 / 5, "🔴 POOR", "Poor compliance - significant improvements needed.",
   floorResults, floorActions⟩

/-- Analyzer state after a second floor-scenario run on the same instance. -/
def runState2 : AIComplianceSEOAnalyzer := ⟨112, floorResults⟩

/-- Report of the second run: the accumulated 112 / 250 = 44.8 % crosses into
MODERATE although each single run scores 22.4 %. -/
def runReport2 : ComplianceReport :=
  ⟨floorUrl, 224 / 5, "🟠 MODERATE", "Moderate compliance - several areas need attention.",
   floorResults, floorActions⟩

set_option maxHeartbeats 2000000 in
theorem floor_run1 :
    analyze_website floorWeb floorUrl 5 initAnalyzer = (runState1, some runReport1) := by
  simp only [analyze_website, floor_crawl]
  norm_num [analyze_content_quality, analyze_technical_performance,
    analyze_semantic_structure, analyze_ai_readiness, analyze_eat_factors,
    analyze_mobile_ai_optimization, generate_compliance_report,
    generate_priority_actions, compliance_level_and_recommendation, round1,
    sum_values, upsert, content_depth_points, semantic_richness_points,
    readability_points, clean_urls_points, mobile_friendly_points,
    page_speed_points, structured_data_points, semantic_html_points,
    meta_optimization_points, question_answering_points,
    conversational_content_points, contextual_clarity_points, author_info_points,
    credibility_signals_points, content_freshness_points, is_clean_path_floor,
    floorPage, floorDoc, floorUrl, floorWeb, initAnalyzer,
    runState1, runReport1, floorResults, floorActions]
  simp
  norm_num [round1]

set_option maxHeartbeats 2000000 in
theorem floor_run2 :
    analyze_website floorWeb floorUrl 5 runState1 = (runState2, some runReport2) := by
  simp only [analyze_website, floor_crawl]
  norm_num [analyze_content_quality, analyze_technical_performance,
    analyze_semantic_structure, analyze_ai_readiness, analyze_eat_factors,
    analyze_mobile_ai_optimization, generate_compliance_report,
    generate_priority_actions, compliance_level_and_recommendation, round1,
    sum_values, upsert, content_depth_points, semantic_richness_points,
    readability_points, clean_urls_points, mobile_friendly_points,
    page_speed_points, structured_data_points, semantic_html_points,
    meta_optimization_points, question_answering_points,
    conversational_content_points, contextual_clarity_points, author_info_points,
    credibility_signals_points, content_freshness_points, is_clean_path_floor,
    floorPage, floorDoc, floorUrl, floorWeb, initAnalyzer,
    runState1, runState2, runReport2, floorResults, floorActions]
  simp
  norm_num [round1]

/-- Upserting the six category keys in pipeline order into a results dict
holding exactly those keys (in insertion order) replaces the six values in
place. -/
theorem upsert_chain_six (a1 a2 a3 a4 a5 a6 b1 b2 b3 b4 b5 b6 : CategoryResult) :
    upsert "mobile_ai_optimization" b6 (upsert "eat_factors" b5
      (upsert "ai_readiness" b4 (upsert "semantic_structure" b3
        (upsert "technical_performance" b2 (upsert "content_quality" b1
          [("content_quality", a1), ("technical_performance", a2),
           ("semantic_structure", a3), ("ai_readiness", a4),
           ("eat_factors", a5), ("mobile_ai_optimization", a6)]))))) =
    [("content_quality", b1), ("technical_performance", b2),
     ("semantic_structure", b3), ("ai_readiness", b4),
     ("eat_factors", b5), ("mobile_ai_optimization", b6)] := by
  simp [upsert]

/-! ## Claim theorems -/

/-- **C1.** For every run from a fresh analyzer instance that produces a
report, the report's overall percentage equals the sum of the six category
scores divided by the fixed constant 250, multiplied by 100 and rounded to
one decimal place; each category score lies between 0 and its declared
maximum (80, 50, 35, 30, 20, 15 — established outright, not assumed), and
the percentage lies in [0, 100] with 100 unreachable. -/
theorem overall_score_formula (web : Url → Option FetchResult) (url : Url)
    (max_pages : Nat) (s' : AIComplianceSEOAnalyzer) (rep : ComplianceReport)
    (h : analyze_website web url max_pages initAnalyzer = (s', some rep)) :
    rep.overall_score = round1 (((sumScores rep.detailed_scores : ℚ) / 250) * 100) ∧
    (∀ e ∈ rep.detailed_scores, e.2.score ≤ e.2.max_score) ∧
    0 ≤ rep.overall_score ∧ rep.overall_score ≤ 100 ∧ rep.overall_score ≠ 100 := by
  obtain ⟨r1, r2, r3, r4, r5, r6, hm1, hlo1, hhi1, hm2, hhi2, hm3, hhi3, hm4, hhi4,
    hm5, hhi5, hm6, hhi6, hcomp, hdet, hrep⟩ := analyze_website_spec _ _ _ _ _ _ h
  have hinit_c : initAnalyzer.compliance_score = 0 := rfl
  have hinit_d : initAnalyzer.detailed_results = [] := rfl
  rw [hinit_c] at hcomp
  rw [hinit_d] at hdet
  have hlist : s'.detailed_results =
      [("content_quality", r1), ("technical_performance", r2),
       ("semantic_structure", r3), ("ai_readiness", r4),
       ("eat_factors", r5), ("mobile_ai_optimization", r6)] := by
    rw [hdet]; simp [upsert]
  have hds : rep.detailed_scores = s'.detailed_results := by
    rw [hrep]; rfl
  have hsum : sumScores rep.detailed_scores = s'.compliance_score := by
    rw [hds, hlist, hcomp]
    simp [sumScores]
    omega
  have hov : rep.overall_score = round1 (((s'.compliance_score : ℚ) / 250) * 100) := by
    rw [hrep]; rfl
  refine ⟨by rw [hov, hsum], ?_, ?_, ?_, ?_⟩
  · intro e he
    rw [hds, hlist] at he
    simp only [List.mem_cons, List.not_mem_nil, or_false] at he
    rcases he with rfl | rfl | rfl | rfl | rfl | rfl <;> simp <;> omega
  · rw [hov, round1_nat]
    positivity
  · rw [hov, round1_nat]
    have hb : s'.compliance_score ≤ 210 := by omega
    have hb' : (s'.compliance_score : ℚ) ≤ 210 := by exact_mod_cast hb
    linarith
  · rw [hov, round1_nat]
    have hb : s'.compliance_score ≤ 210 := by omega
    have hb' : (s'.compliance_score : ℚ) ≤ 210 := by exact_mod_cast hb
    intro hcontra
    have : (2 * (s'.compliance_score : ℚ)) / 5 ≤ 84 := by linarith
    rw [hcontra] at this
    linarith

/-- **C1 witness.** The floor-scenario run instantiates the formula. -/
theorem overall_score_formula_witness :
    analyze_website floorWeb floorUrl 5 initAnalyzer = (runState1, some runReport1) ∧
    (runReport1.overall_score =
        round1 (((sumScores runReport1.detailed_scores : ℚ) / 250) * 100) ∧
      (∀ e ∈ runReport1.detailed_scores, e.2.score ≤ e.2.max_score) ∧
      0 ≤ runReport1.overall_score ∧ runReport1.overall_score ≤ 100 ∧
      runReport1.overall_score ≠ 100) :=
  ⟨floor_run1, overall_score_formula floorWeb floorUrl 5 runState1 runReport1 floor_run1⟩

/-- **C2.** The tier mapping from the overall percentage: `≥ 80 → EXCELLENT`,
else `≥ 60 → GOOD`, else `≥ 40 → MODERATE`, else `POOR`, evaluated high to
low with first match winning, each tier paired with its fixed recommendation
string; in particular exactly 80.0 % is EXCELLENT, 79.9 % is GOOD, 60.0 % is
GOOD and 39.9 % is POOR. -/
theorem compliance_tier_mapping (p : ℚ) :
    ((80 ≤ p → compliance_level_and_recommendation p =
        ("🟢 EXCELLENT", "Your website is highly AI-compliant!")) ∧
     (60 ≤ p → p < 80 → compliance_level_and_recommendation p =
        ("🟡 GOOD", "Good compliance with room for improvement.")) ∧
     (40 ≤ p → p < 60 → compliance_level_and_recommendation p =
        ("🟠 MODERATE", "Moderate compliance - several areas need attention.")) ∧
     (p < 40 → compliance_level_and_recommendation p =
        ("🔴 POOR", "Poor compliance - significant improvements needed."))) ∧
    compliance_level_and_recommendation 80 =
      ("🟢 EXCELLENT", "Your website is highly AI-compliant!") ∧
    compliance_level_and_recommendation (799 / 10) =
      ("🟡 GOOD", "Good compliance with room for improvement.") ∧
    compliance_level_and_recommendation 60 =
      ("🟡 GOOD", "Good compliance with room for improvement.") ∧
    compliance_level_and_recommendation (399 / 10) =
      ("🔴 POOR", "Poor compliance - significant improvements needed.") := by
  refine ⟨⟨?_, ?_, ?_, ?_⟩, ?_, ?_, ?_, ?_⟩ <;>
    unfold compliance_level_and_recommendation <;>
    intros <;> split_ifs <;> first | rfl | linarith

/-- **C2 witness.** Instantiated at the 80 % boundary. -/
theorem compliance_tier_mapping_witness :
    (80 : ℚ) ≤ 80 ∧ compliance_level_and_recommendation 80 =
      ("🟢 EXCELLENT", "Your website is highly AI-compliant!") :=
  ⟨le_refl 80, (compliance_tier_mapping 80).1.1 (le_refl 80)⟩

/-- **C3.** For every page budget `n ≥ 1` and start URL, the crawl returns at
most `n` pages, and every returned page's URL has the start URL's domain
(netloc) or an empty domain — the empty case being exactly the one the
`is_internal_link` filter lets through for links that resolve without a
domain of their own. -/
theorem crawl_bounded_and_internal (web : Url → Option FetchResult)
    (base_url : Url) (n : Nat) (_hn : 1 ≤ n) :
    (crawl_website web base_url n).length ≤ n ∧
    ∀ p ∈ crawl_website web base_url n,
      p.url.netloc = base_url.netloc ∨ p.url.netloc = "" := by
  constructor
  · exact crawl_loop_length web base_url n [base_url] [] [] [] (by simp)
  · refine crawl_loop_internal web base_url n [base_url] [] [] [] ?_ ?_
    · intro u hu
      simp only [List.mem_singleton] at hu
      subst hu
      left; rfl
    · intro p hp
      simp at hp

/-- **C3 witness.** Instantiated on the one-page floor web with budget 5. -/
theorem crawl_bounded_and_internal_witness :
    1 ≤ 5 ∧ ((crawl_website floorWeb floorUrl 5).length ≤ 5 ∧
      ∀ p ∈ crawl_website floorWeb floorUrl 5,
        p.url.netloc = floorUrl.netloc ∨ p.url.netloc = "") :=
  ⟨by norm_num, crawl_bounded_and_internal floorWeb floorUrl 5 (by norm_num)⟩

/-- **C4 counterexample.** The claim "no URL is ever fetched twice, including
URLs whose fetch fails" is false: in `dupWeb` the start page links twice to
`brokenUrl`, whose fetch raises; a failed fetch does not enter the visited
set, so `brokenUrl` is fetched twice (the fetch trace holds duplicates). -/
theorem crawl_refetches_failed_url :
    ¬ (((crawl_trace dupWeb floorUrl 10).map (fun e => e.1)).Nodup) := by
  rw [dup_trace]
  decide

/-- **C4 (amended).** Within a single crawl run no URL is ever *successfully*
fetched twice: the URLs of the returned pages are pairwise distinct, and the
successful entries of the fetch trace name pairwise distinct URLs.  (A URL
enters the visited set exactly on a successful fetch and is never fetched
again afterwards; only URLs whose fetch fails or returns non-200 can be
re-fetched, as the counterexample shows.) -/
theorem crawl_successful_fetch_once (web : Url → Option FetchResult)
    (base_url : Url) (n : Nat) :
    ((crawl_website web base_url n).map (fun p => p.url)).Nodup ∧
    (((crawl_trace web base_url n).filter (fun e => e.2)).map (fun e => e.1)).Nodup := by
  exact crawl_loop_nodup web base_url n [base_url] [] [] [] (by simp) (by simp) (by simp)

/-- **C7.** When the crawl returns zero pages, the whole analysis fails: the
first scorer's division by the page count raises, `analyze_website`'s
`try/except` returns `None`, and the analyzer state is untouched — no
all-zero and no partial report is produced. -/
theorem empty_crawl_no_report (web : Url → Option FetchResult) (url : Url)
    (n : Nat) (self : AIComplianceSEOAnalyzer)
    (h : crawl_website web url n = []) :
    (analyze_website web url n self).2 = none ∧
    (analyze_website web url n self).1 = self := by
  constructor <;> simp [analyze_website, h, analyze_content_quality]

/-- **C7 witness.** A web where every fetch fails crawls zero pages. -/
theorem empty_crawl_no_report_witness :
    crawl_website deadWeb floorUrl 3 = [] ∧
    ((analyze_website deadWeb floorUrl 3 initAnalyzer).2 = none ∧
     (analyze_website deadWeb floorUrl 3 initAnalyzer).1 = initAnalyzer) :=
  ⟨dead_crawl, empty_crawl_no_report deadWeb floorUrl 3 initAnalyzer dead_crawl⟩

/-- **C9.** For every non-empty page list the content-quality scorer
succeeds, and its category score lies between 30 and 60 inclusive although
the declared maximum is 80: `keyword_optimization` stays at its initial 0,
and the three scored signals have floors 10+10+10 and caps 25+20+15. -/
theorem content_quality_score_bounds (pages_data : List PageData)
    (s : AIComplianceSEOAnalyzer) (h : pages_data ≠ []) :
    ∃ s' r, analyze_content_quality pages_data s = some s' ∧
      s'.detailed_results.lookup "content_quality" = some r ∧
      30 ≤ r.score ∧ r.score ≤ 60 ∧ r.max_score = 80 ∧
      r.details.lookup "keyword_optimization" = some 0 := by
  have hne : ¬ (pages_data.length = 0) := by
    simpa [List.length_eq_zero] using h
  have hsome : ∃ s', analyze_content_quality pages_data s = some s' := by
    unfold analyze_content_quality
    simp only []
    rw [if_neg hne]
    exact ⟨_, rfl⟩
  obtain ⟨s', hs⟩ := hsome
  obtain ⟨r, hd, _, hm, hlo, hhi, hkw⟩ := analyze_content_quality_spec _ _ _ hs
  exact ⟨s', r, hs, by rw [hd, lookup_upsert], hlo, hhi, hm, hkw⟩

/-- **C9 witness.** Instantiated on the one-page floor crawl. -/
theorem content_quality_score_bounds_witness :
    [floorPage] ≠ [] ∧
    (∃ s' r, analyze_content_quality [floorPage] initAnalyzer = some s' ∧
      s'.detailed_results.lookup "content_quality" = some r ∧
      30 ≤ r.score ∧ r.score ≤ 60 ∧ r.max_score = 80 ∧
      r.details.lookup "keyword_optimization" = some 0) :=
  ⟨by simp, content_quality_score_bounds [floorPage] initAnalyzer (by simp)⟩

/-- **C5.** Concrete evaluation of the floor scenario (one crawled page at
`http://example.com/page?id=1`, 50 words, no headings, no viewport, no
structured data, no author/date/credibility markers, 3-second latency).
Every signal lands on its else-branch floor **except** `clean_urls`, which
scores 10 — not the floor 3 the spec expects for a query-string URL — because
the source tests `re.search(r'[?&=]', urlparse(url).path)` and the query
string is not part of the path.  The tier is POOR and the priority actions
are the six remediation sentences truncated to 5. -/
theorem floor_scenario_eval :
    analyze_website floorWeb floorUrl 5 initAnalyzer = (runState1, some runReport1) ∧
    runReport1.compliance_level = "🔴 POOR" ∧
    runReport1.detailed_scores =
      [("content_quality", ⟨30, 80, [("readability", 10), ("semantic_richness", 10),
          ("content_depth", 10), ("keyword_optimization", 0)]⟩),
       ("technical_performance", ⟨20, 50, [("ssl_security", 0), ("page_speed", 5),
          ("mobile_friendly", 5), ("clean_urls", 10)]⟩),
       ("semantic_structure", ⟨6, 35, [("structured_data", 0), ("semantic_html", 3),
          ("meta_optimization", 3)]⟩),
       ("ai_readiness", ⟨0, 30, [("conversational_content", 0), ("question_answering", 0),
          ("contextual_clarity", 0)]⟩),
       ("eat_factors", ⟨0, 20, [("author_info", 0), ("credibility_signals", 0),
          ("content_freshness", 0)]⟩),
       ("mobile_ai_optimization", ⟨0, 15, [("responsive_design", 0),
          ("core_web_vitals", 0)]⟩)] ∧
    runReport1.priority_actions =
      [content_quality_action, technical_performance_action, semantic_structure_action,
       ai_readiness_action, eat_factors_action] :=
  ⟨floor_run1, rfl, rfl, rfl⟩

/-- **C10.** The running total and the results container live on the analyzer
instance and are never reset: after two consecutive `analyze_website` calls
on the same instance, the second report's overall percentage is computed from
the accumulated total of both runs (`s2.compliance_score`), which exceeds the
second run's own category-score sum whenever the first run scored at all —
so it differs from the percentage the second run's scores alone would give. -/
theorem accumulator_across_runs (web1 web2 : Url → Option FetchResult)
    (u1 u2 : Url) (n1 n2 : Nat) (s1 s2 : AIComplianceSEOAnalyzer)
    (r1 r2 : ComplianceReport)
    (h1 : analyze_website web1 u1 n1 initAnalyzer = (s1, some r1))
    (h2 : analyze_website web2 u2 n2 s1 = (s2, some r2)) :
    s1.compliance_score = sumScores r1.detailed_scores ∧
    s2.compliance_score = s1.compliance_score + sumScores r2.detailed_scores ∧
    r2.overall_score = round1 (((s2.compliance_score : ℚ) / 250) * 100) ∧
    (0 < s1.compliance_score →
      r2.overall_score ≠ round1 (((sumScores r2.detailed_scores : ℚ) / 250) * 100)) := by
  obtain ⟨a1, a2, a3, a4, a5, a6, _, _, _, _, _, _, _, _, _, _, _, _, _,
    hcomp1, hdet1, hrep1⟩ := analyze_website_spec _ _ _ _ _ _ h1
  obtain ⟨b1, b2, b3, b4, b5, b6, _, _, _, _, _, _, _, _, _, _, _, _, _,
    hcomp2, hdet2, hrep2⟩ := analyze_website_spec _ _ _ _ _ _ h2
  have hinit_c : initAnalyzer.compliance_score = 0 := rfl
  have hinit_d : initAnalyzer.detailed_results = [] := rfl
  rw [hinit_c] at hcomp1
  rw [hinit_d] at hdet1
  have hlist1 : s1.detailed_results =
      [("content_quality", a1), ("technical_performance", a2),
       ("semantic_structure", a3), ("ai_readiness", a4),
       ("eat_factors", a5), ("mobile_ai_optimization", a6)] := by
    rw [hdet1]; simp [upsert]
  have hlist2 : s2.detailed_results =
      [("content_quality", b1), ("technical_performance", b2),
       ("semantic_structure", b3), ("ai_readiness", b4),
       ("eat_factors", b5), ("mobile_ai_optimization", b6)] := by
    rw [hdet2, hlist1, upsert_chain_six]
  have hds1 : r1.detailed_scores = s1.detailed_results := by rw [hrep1]; rfl
  have hds2 : r2.detailed_scores = s2.detailed_results := by rw [hrep2]; rfl
  have hsum1 : sumScores r1.detailed_scores = s1.compliance_score := by
    rw [hds1, hlist1, hcomp1]; simp [sumScores]; omega
  have hsum2 : sumScores r2.detailed_scores =
      b1.score + b2.score + b3.score + b4.score + b5.score + b6.score := by
    rw [hds2, hlist2]; simp [sumScores]; omega
  have hacc : s2.compliance_score = s1.compliance_score + sumScores r2.detailed_scores := by
    rw [hsum2, hcomp2]; omega
  have hov : r2.overall_score = round1 (((s2.compliance_score : ℚ) / 250) * 100) := by
    rw [hrep2]; rfl
  refine ⟨hsum1.symm, hacc, hov, ?_⟩
  intro hpos hcontra
  rw [hov, round1_nat, round1_nat, hacc] at hcontra
  field_simp at hcontra
  have hz : s1.compliance_score = 0 := by exact_mod_cast hcontra
  omega

/-- **C10 witness.** Two consecutive floor-scenario runs on one instance: the
first run totals 56 (22.4 %, POOR), after the second run the accumulator
holds 112 and the second report says 44.8 % (MODERATE), not 22.4 %. -/
theorem accumulator_across_runs_witness :
    analyze_website floorWeb floorUrl 5 initAnalyzer = (runState1, some runReport1) ∧
    analyze_website floorWeb floorUrl 5 runState1 = (runState2, some runReport2) ∧
    (runState1.compliance_score = sumScores runReport1.detailed_scores ∧
     runState2.compliance_score =
       runState1.compliance_score + sumScores runReport2.detailed_scores ∧
     runReport2.overall_score =
       round1 (((runState2.compliance_score : ℚ) / 250) * 100) ∧
     (0 < runState1.compliance_score →
       runReport2.overall_score ≠
         round1 (((sumScores runReport2.detailed_scores : ℚ) / 250) * 100))) :=
  ⟨floor_run1, floor_run2,
    accumulator_across_runs floorWeb floorWeb floorUrl floorUrl 5 5 runState1 runState2
      runReport1 runReport2 floor_run1 floor_run2⟩

/-- **C6.** Each threshold-band signal awards points monotonically
non-decreasing in its driving proportion or average (for `page_speed` the
driving average is a latency, where lower is better, so the points are
monotone in the favourable direction, i.e. antitone in the latency; the
count-driven signals are monotone in the page count for any fixed page
total).  At the band boundary of content depth, an average word count of 999
yields 20 points (the `≥ 500` band, not 10 as the spec example says) and
1000 yields 25. -/
theorem signal_points_monotone :
    (∀ a b : ℚ, a ≤ b → content_depth_points a ≤ content_depth_points b) ∧
    (∀ a b : ℚ, a ≤ b → semantic_richness_points a ≤ semantic_richness_points b) ∧
    (∀ a b : ℚ, a ≤ b → readability_points a ≤ readability_points b) ∧
    (∀ a b : ℚ, a ≤ b → clean_urls_points a ≤ clean_urls_points b) ∧
    (∀ a b : ℚ, a ≤ b → mobile_friendly_points a ≤ mobile_friendly_points b) ∧
    (∀ a b : ℚ, b ≤ a → page_speed_points a ≤ page_speed_points b) ∧
    (∀ n a b : Nat, a ≤ b → structured_data_points a n ≤ structured_data_points b n) ∧
    (∀ a b : ℚ, a ≤ b → semantic_html_points a ≤ semantic_html_points b) ∧
    (∀ a b : ℚ, a ≤ b → meta_optimization_points a ≤ meta_optimization_points b) ∧
    (∀ n a b : Nat, a ≤ b → question_answering_points a n ≤ question_answering_points b n) ∧
    (∀ a b : ℚ, a ≤ b → conversational_content_points a ≤ conversational_content_points b) ∧
    (∀ a b : ℚ, a ≤ b → contextual_clarity_points a ≤ contextual_clarity_points b) ∧
    (∀ n a b : Nat, a ≤ b → author_info_points a n ≤ author_info_points b n) ∧
    (∀ n a b : Nat, a ≤ b → credibility_signals_points a n ≤ credibility_signals_points b n) ∧
    (∀ n a b : Nat, a ≤ b → content_freshness_points a n ≤ content_freshness_points b n) ∧
    content_depth_points 999 = 20 ∧ content_depth_points 1000 = 25 := by
  refine ⟨?_, ?_, ?_, ?_, ?_, ?_, ?_, ?_, ?_, ?_, ?_, ?_, ?_, ?_, ?_, ?_, ?_⟩
  · intro a b hab
    unfold content_depth_points
    split_ifs <;> first | omega | linarith
  · intro a b hab
    unfold semantic_richness_points
    split_ifs <;> first | omega | linarith
  · intro a b hab
    unfold readability_points
    split_ifs <;> first | omega | linarith
  · intro a b hab
    unfold clean_urls_points
    split_ifs <;> first | omega | linarith
  · intro a b hab
    unfold mobile_friendly_points
    split_ifs <;> first | omega | linarith
  · intro a b hab
    unfold page_speed_points
    split_ifs <;> first | omega | linarith
  · intro n a b hab
    have hd := natDiv_mono n a b hab
    unfold structured_data_points
    split_ifs <;> first | omega | linarith
  · intro a b hab
    unfold semantic_html_points
    split_ifs <;> first | omega | linarith
  · intro a b hab
    unfold meta_optimization_points
    split_ifs <;> first | omega | linarith
  · intro n a b hab
    have hd := natDiv_mono n a b hab
    unfold question_answering_points
    split_ifs <;> first | omega | linarith
  · intro a b hab
    unfold conversational_content_points
    split_ifs <;> first | omega | linarith
  · intro a b hab
    unfold contextual_clarity_points
    split_ifs <;> first | omega | linarith
  · intro n a b hab
    have hd := natDiv_mono n a b hab
    unfold author_info_points
    split_ifs <;> first | omega | linarith
  · intro n a b hab
    have hd := natDiv_mono n a b hab
    unfold credibility_signals_points
    split_ifs <;> first | omega | linarith
  · intro n a b hab
    have hd := natDiv_mono n a b hab
    unfold content_freshness_points
    split_ifs <;> first | omega | linarith
  · unfold content_depth_points
    split_ifs <;> first | rfl | linarith
  · unfold content_depth_points
    split_ifs <;> first | rfl | linarith

/-- **C6 witness.** The content-depth band instantiated at 999 ≤ 1000. -/
theorem signal_points_monotone_witness :
    (999 : ℚ) ≤ 1000 ∧ content_depth_points 999 ≤ content_depth_points 1000 :=
  ⟨by norm_num, signal_points_monotone.1 999 1000 (by norm_num)⟩

/-- **C6 counterexample.** The claim (and the spec's example) says an average
word count of 999 yields 10 content-depth points; the source's band chain
(`>= 1000 → 25, >= 500 → 20, >= 300 → 15, else 10`) awards 20 at 999. -/
theorem content_depth_999_not_floor :
    content_depth_points 999 = 20 ∧ content_depth_points 999 ≠ 10 := by
  constructor <;> unfold content_depth_points <;> norm_num

set_option maxHeartbeats 3200000 in
/-- **C8.** `generate_priority_actions` on the six category results in their
declared order equals: the fixed remediation sentences of exactly the
categories with `score / maxScore < 1/2`, in that order, truncated to at most
5 — and the two fixed maintain sentences when no category qualifies.  The
resulting list is never empty and never longer than 5. -/
theorem priority_actions_spec (s1 s2 s3 s4 s5 s6 : Nat)
    (d1 d2 d3 d4 d5 d6 : List (String × Nat)) :
    generate_priority_actions
      [("content_quality", ⟨s1, 80, d1⟩), ("technical_performance", ⟨s2, 50, d2⟩),
       ("semantic_structure", ⟨s3, 35, d3⟩), ("ai_readiness", ⟨s4, 30, d4⟩),
       ("eat_factors", ⟨s5, 20, d5⟩), ("mobile_ai_optimization", ⟨s6, 15, d6⟩)] =
      (if ((if (s1 : ℚ) / 80 < 1 / 2 then [content_quality_action] else []) ++
           (if (s2 : ℚ) / 50 < 1 / 2 then [technical_performance_action] else []) ++
           (if (s3 : ℚ) / 35 < 1 / 2 then [semantic_structure_action] else []) ++
           (if (s4 : ℚ) / 30 < 1 / 2 then [ai_readiness_action] else []) ++
           (if (s5 : ℚ) / 20 < 1 / 2 then [eat_factors_action] else []) ++
           (if (s6 : ℚ) / 15 < 1 / 2 then [mobile_ai_optimization_action] else [])) = []
       then [maintain_action_1, maintain_action_2]
       else ((if (s1 : ℚ) / 80 < 1 / 2 then [content_quality_action] else []) ++
             (if (s2 : ℚ) / 50 < 1 / 2 then [technical_performance_action] else []) ++
             (if (s3 : ℚ) / 35 < 1 / 2 then [semantic_structure_action] else []) ++
             (if (s4 : ℚ) / 30 < 1 / 2 then [ai_readiness_action] else []) ++
             (if (s5 : ℚ) / 20 < 1 / 2 then [eat_factors_action] else []) ++
             (if (s6 : ℚ) / 15 < 1 / 2 then [mobile_ai_optimization_action] else [])).take 5) ∧
    1 ≤ (generate_priority_actions
      [("content_quality", ⟨s1, 80, d1⟩), ("technical_performance", ⟨s2, 50, d2⟩),
       ("semantic_structure", ⟨s3, 35, d3⟩), ("ai_readiness", ⟨s4, 30, d4⟩),
       ("eat_factors", ⟨s5, 20, d5⟩), ("mobile_ai_optimization", ⟨s6, 15, d6⟩)]).length ∧
    (generate_priority_actions
      [("content_quality", ⟨s1, 80, d1⟩), ("technical_performance", ⟨s2, 50, d2⟩),
       ("semantic_structure", ⟨s3, 35, d3⟩), ("ai_readiness", ⟨s4, 30, d4⟩),
       ("eat_factors", ⟨s5, 20, d5⟩), ("mobile_ai_optimization", ⟨s6, 15, d6⟩)]).length ≤ 5 := by
  have key : ∀ a : ℚ, (a * 100 < 50 ↔ a < 1 / 2) := by
    intro a
    constructor <;> intro h <;> linarith
  simp only [generate_priority_actions, List.foldl_cons, List.foldl_nil,
    Nat.cast_ofNat, key]
  by_cases c1 : (s1 : ℚ) / 80 < 1 / 2 <;>
  by_cases c2 : (s2 : ℚ) / 50 < 1 / 2 <;>
  by_cases c3 : (s3 : ℚ) / 35 < 1 / 2 <;>
  by_cases c4 : (s4 : ℚ) / 30 < 1 / 2 <;>
  by_cases c5 : (s5 : ℚ) / 20 < 1 / 2 <;>
  by_cases c6 : (s6 : ℚ) / 15 < 1 / 2 <;>
  (simp only [c1, c2, c3, c4, c5, c6]; simp)
